import Mathlib

/-!
# Verification of the legal-assistant pipeline core (`app.py`)

Shallow embedding of the pipeline in `app.py`: strings are modelled as
`List Char` (ASCII-level model of Python `str`), the generative-model
client as a function `Str → Except Str Str` (an `Except.error` models a
raised exception caught by the surrounding `try`), and the ChromaDB
collection as a function returning the raw query-result record.
-/

namespace LegalApp

/-- Python strings, modelled as character lists. -/
abbrev Str := List Char

/-- Coerce a Lean string literal into the model. -/
def S (s : String) : Str := s.data

/-- `str.lower()` (ASCII model). -/
def lowerStr (s : Str) : Str := s.map Char.toLower

/-- `str.upper()` (ASCII model). -/
def upperStr (s : Str) : Str := s.map Char.toUpper

/-- `str.strip()` (ASCII whitespace model). -/
def pyStrip (s : Str) : Str :=
  (((s.dropWhile Char.isWhitespace).reverse).dropWhile Char.isWhitespace).reverse

/-- Boolean prefix test (Python `str.startswith`). -/
def isPrefixB : Str → Str → Bool
  | [], _ => true
  | _ :: _, [] => false
  | a :: l, b :: s => a == b && isPrefixB l s

/-- Boolean substring test (Python `pat in s`). -/
def containsB (pat : Str) : Str → Bool
  | [] => pat.isEmpty
  | c :: s => isPrefixB pat (c :: s) || containsB pat s

/-- `str.split('\n')`. -/
def splitNl : Str → List Str
  | [] => [[]]
  | c :: s =>
    if c = '\n' then [] :: splitNl s
    else
      match splitNl s with
      | [] => [[c]]
      | t :: ts => (c :: t) :: ts

/-- `str.replace(c, r)` for a single-character needle. -/
def replaceChar (c : Char) (r : Str) : Str → Str
  | [] => []
  | a :: s => (if a = c then r else [a]) ++ replaceChar c r s

/-! ## A small lazy-regex engine

The patterns in `process_text_for_pdf` all have the shape
`\[lit.*?lit.*?\]`: alternating case-insensitive literals and lazy
wildcard runs (`.*?`, where `.` excludes `'\n'`).  The engine below
implements exactly that fragment with Python `re` semantics:
leftmost match, lazy quantifiers try the shortest extension first,
`re.IGNORECASE` literal comparison. -/

/-- One token of a pattern: a literal run, or a lazy `.*?`. -/
inductive Tok
  | lit (l : Str)
  | star
deriving DecidableEq

/-- Case-insensitive prefix test used for `re.IGNORECASE` literals. -/
def isPrefixCI : Str → Str → Bool
  | [], _ => true
  | _ :: _, [] => false
  | a :: l, b :: s => a.toLower == b.toLower && isPrefixCI l s

/-- The lazy `.*?` loop: try the continuation `next` after consuming
0, 1, 2, … characters (never consuming `'\n'`), shortest first. -/
def starLoop (next : Str → Option Nat) : Str → Option Nat
  | [] => next []
  | c :: s =>
    match next (c :: s) with
    | some m => some m
    | none => if c == '\n' then none else (starLoop next s).map (· + 1)

/-- Match a token list at the start of `s`; return the number of
characters consumed by the first (lazy-preferred) match, if any. -/
def matchToks : List Tok → Str → Option Nat
  | [], _ => some 0
  | .lit l :: ps, s =>
    if isPrefixCI l s then (matchToks ps (s.drop l.length)).map (· + l.length) else none
  | .star :: ps, s => starLoop (matchToks ps) s

/-- The scanning loop of `re.sub`, with fuel bounding the number of
scan steps (each step consumes at least one character, so fuel
`s.length` is always enough). -/
def subAllFuel (p : List Tok) (r : Str) : Nat → Str → Str
  | _, [] => []
  | 0, s => s
  | fuel + 1, c :: s =>
    match matchToks p (c :: s) with
    | some (n + 1) => r ++ subAllFuel p r fuel (s.drop n)
    | _ => c :: subAllFuel p r fuel s

/-- `re.sub(p, r, s)`: replace every leftmost non-overlapping match. -/
def subAll (p : List Tok) (r : Str) (s : Str) : Str :=
  subAllFuel p r s.length s

/-- `true` when the pattern matches at no position of `s` (so
`subAll p r s = s` for every replacement `r`). -/
def matchesNowhere (p : List Tok) : Str → Bool
  | [] => true
  | c :: s => (matchToks p (c :: s)).isNone && matchesNowhere p s

/-! ## The model client and the stage functions of `app.py` -/

/-- The generative-model client: a prompt in, either a response text or a
raised exception (modelled as `Except.error` with the exception's text). -/
abbrev Model := Str → Except Str Str

/-- The prompt built by `detect_language_of_text`. -/
def detect_prompt (text : Str) : Str :=
  S "Identify the language of this text. Respond with only the language name.\nText: \"" ++
    text ++ S "\""

/-- `detect_language_of_text` from `app.py`. -/
def detect_language_of_text (model : Model) (text : Str) : Str :=
  match model (detect_prompt text) with
  | .ok response => pyStrip response
  | .error _ => S "English"

/-- The prompt built by `translate_text`. -/
def translate_prompt (text target_language source_language : Str) : Str :=
  S "Translate the following text from " ++ source_language ++ S " to " ++
    target_language ++ S ":\n\n" ++ text

/-- `translate_text` from `app.py`. -/
def translate_text (model : Model) (text target_language : Str)
    (source_language : Str := S "auto") : Str :=
  match model (translate_prompt text target_language source_language) with
  | .ok response => pyStrip response
  | .error _ => text

/-- The prompt built by `is_legal_query`. -/
def legal_prompt (user_query : Str) : Str :=
  S "Is the following text a legal query related to Indian law? Answer ONLY 'Yes' or 'No'.\nText: \"" ++
    user_query ++ S "\""

/-- `is_legal_query` from `app.py`. -/
def is_legal_query (model : Model) (user_query : Str) : Bool :=
  match model (legal_prompt user_query) with
  | .ok response => containsB (S "yes") (lowerStr (pyStrip response))
  | .error _ => false

/-! ## The document renderer (`generate_pdf` and its helpers) -/

/-- `create_blank_line` from `generate_pdf`.  The source computes
`"_" * int(width_inches * 20)`; every call site passes a positive width,
where Python `int` truncation coincides with the floor, and for a
rational `w` the floor of `w * 20` is `(w.num * 20) / w.den` in
euclidean integer division (proved below as
`create_blank_line_eq_floor`). -/
def create_blank_line (width_inches : ℚ := mkRat 3 1) : Str :=
  List.replicate (width_inches.num * 20 / (width_inches.den : Int)).toNat '_'

/-- The ordered substitution rules of `process_text_for_pdf`; `now` is the
value of `datetime.now().strftime("%B %d, %Y")`.  Widths are the source's
literals: `mkRat 3 1 = 3`, `mkRat 2 1 = 2`, `mkRat 5 2 = 2.5`,
`mkRat 4 1 = 4`, `mkRat 5 1 = 5`. -/
def patterns (now : Str) : List (List Tok × Str) :=
  [([.lit (S "[Police Station Name"), .star, .lit (S "]")], create_blank_line (mkRat 3 1)),
   ([.lit (S "[City, State, India"), .star, .lit (S "]")], create_blank_line (mkRat 3 1)),
   ([.lit (S "[Current Date"), .star, .lit (S "]")], now),
   ([.lit (S "[Date of incident"), .star, .lit (S "]")], create_blank_line (mkRat 2 1)),
   ([.lit (S "[Time of incident"), .star, .lit (S "]")], create_blank_line (mkRat 2 1)),
   ([.lit (S "["), .star, .lit (S "Name"), .star, .lit (S "]")], create_blank_line (mkRat 3 1)),
   ([.lit (S "["), .star, .lit (S "Address"), .star, .lit (S "]")], create_blank_line (mkRat 4 1)),
   ([.lit (S "["), .star, .lit (S "Contact"), .star, .lit (S "]")], create_blank_line (mkRat 5 2)),
   ([.lit (S "[User's Signature"), .star, .lit (S "]")], create_blank_line (mkRat 5 2)),
   ([.lit (S "[Complainant's"), .star, .lit (S "]")], create_blank_line (mkRat 3 1)),
   ([.lit (S "[User's"), .star, .lit (S "]")], create_blank_line (mkRat 3 1)),
   ([.lit (S "["), .star, .lit (S "description of the person"), .star, .lit (S "]")],
    create_blank_line (mkRat 5 1))]

/-- `process_text_for_pdf` from `generate_pdf`: apply every substitution
rule in sequence against the same line. -/
def process_text_for_pdf (now : Str) (text : Str) : Str :=
  (patterns now).foldl (fun t pr => subAll pr.1 pr.2 t) text

/-- The markup escaping applied to each processed line:
`.replace('&', '&amp;').replace('<', '&lt;').replace('>', '&gt;')`. -/
def escapeMarkup (t : Str) : Str :=
  replaceChar '>' (S "&gt;") (replaceChar '<' (S "&lt;") (replaceChar '&' (S "&amp;") t))

/-- The four visual roles a line can be rendered with. -/
inductive Role
  | title
  | heading
  | address
  | body
deriving DecidableEq

/-- The heading keyword list of `generate_pdf` (case-sensitive). -/
def headingKeywords : List Str :=
  [S "Parties Involved", S "Factual Summary", S "Applicable Legal Sections",
   S "Demand or Request", S "Verification", S "Date:", S "Sender Details", S "Signature:"]

/-- The `if`/`elif` classification chain of `generate_pdf`, applied to the
stripped line. -/
def classifyLine (line : Str) : Role :=
  if containsB (S "LEGAL COMPLAINT") (upperStr line) && decide (line.length < 30) then .title
  else if headingKeywords.any (fun kw => containsB kw line) then .heading
  else if isPrefixB (S "To,") line then .address
  else .body

/-- One flowable appended to `elements`: a vertical spacer for a blank
line, or a paragraph with its text and visual role (the role fixes the
style object used in the source). -/
inductive PdfElem
  | spacer
  | para (text : Str) (role : Role)
deriving DecidableEq

/-- The loop body of `generate_pdf` for one raw line: strip, spacer for a
blank line, otherwise substitute and escape into `processed_line` and
classify.  Note the source passes the raw `line` (not `processed_line`)
to Title paragraphs. -/
def renderLine (now : Str) (rawLine : Str) : PdfElem :=
  if (pyStrip rawLine).isEmpty then .spacer
  else
    match classifyLine (pyStrip rawLine) with
    | .title => .para (pyStrip rawLine) .title
    | .heading => .para (escapeMarkup (process_text_for_pdf now (pyStrip rawLine))) .heading
    | .address => .para (escapeMarkup (process_text_for_pdf now (pyStrip rawLine))) .address
    | .body => .para (escapeMarkup (process_text_for_pdf now (pyStrip rawLine))) .body

/-- `generate_pdf` from `app.py`, embedded up to the flowable list handed
to `doc.build` (the ReportLab layout engine itself is external). -/
def generate_pdf (now : Str) (complaint_text : Str) : List PdfElem :=
  (splitNl complaint_text).map (renderLine now)

/-! ## Retrieval (`search_relevant_sections`) -/

/-- One metadata record of the Chroma store; `Option` models keys that
`metadata.get` may find missing. -/
structure ChromaMeta where
  section_number : Option Str
  title : Option Str
deriving DecidableEq

/-- The raw record returned by `collection.query`: outer lists have one
entry per query text.  `ids` is `Option` to model `results.get('ids')`. -/
structure QueryResult where
  ids : Option (List (List Str))
  metadatas : List (List ChromaMeta)
  documents : List (List Str)
deriving DecidableEq

/-- One normalized entry appended to `relevant_sections`. -/
structure LegalSection where
  section_number : Str
  title : Str
  description : Str
deriving DecidableEq

/-- One iteration of the loop in `search_relevant_sections`: fetch
`metadatas[0][i]` and `documents[0][i]` (`none` models an `IndexError`)
and normalize with the `'N/A'` sentinel. -/
def fetchRow (results : QueryResult) (i : Nat) : Option LegalSection := do
  let metadata ← results.metadatas.head?.bind fun row => row.get? i
  let document ← results.documents.head?.bind fun row => row.get? i
  pure { section_number := metadata.section_number.getD (S "N/A"),
         title := metadata.title.getD (S "N/A"),
         description := document }

/-- The `for i in range(n)` accumulation of `relevant_sections`. -/
def buildRows (results : QueryResult) : Nat → Option (List LegalSection)
  | 0 => some []
  | n + 1 => do
    let rest ← buildRows results n
    let s ← fetchRow results n
    pure (rest ++ [s])

/-- `search_relevant_sections` from `app.py`; `none` models an uncaught
exception escaping the function. -/
def search_relevant_sections (collection : Str → Nat → QueryResult) (user_query : Str)
    (num_results : Nat := 5) : Option (List LegalSection) :=
  match (collection user_query num_results).ids with
  | none => some []
  | some idss =>
    match idss.head? with
    | none => some []
    | some ids0 =>
      if ids0.isEmpty then some []
      else buildRows (collection user_query num_results) ids0.length

/-! ## Drafting (`generate_legal_complaint`) -/

/-- The bullet built for one retrieved section. -/
def bulletOf (s : LegalSection) : Str :=
  S "• Section " ++ s.section_number ++ S ": " ++ s.title ++
    S "\n  Description: " ++ s.description

/-- Python `sep.join`. -/
def joinWith (sep : Str) : List Str → Str
  | [] => []
  | [x] => x
  | x :: y :: xs => x ++ sep ++ joinWith sep (y :: xs)

/-- The `sections_text` conditional of `generate_legal_complaint`. -/
def sections_text (ipc_sections : List LegalSection) : Str :=
  if ipc_sections.isEmpty then S "Based on the user's description."
  else joinWith (S "\n") (ipc_sections.map bulletOf)

/-- The fixed prompt text before the scenario. -/
def complaintPre : Str :=
  S "Generate a formal legal complaint for Indian law based on this scenario: '"

/-- The fixed prompt text between the scenario and the section list. -/
def complaintMid : Str :=
  S "'. \n    Relevant IPC sections found: \n    "

/-- The fixed prompt text after the section list. -/
def complaintPost : Str :=
  S "\n    \n    Structure the complaint professionally with the following sections:\n    - LEGAL COMPLAINT (Title)\n    - To, The Station House Officer, [Police Station Name], [City, State, India]\n    - Date: [Current Date]\n    - Parties Involved: (Complainant and Accused)\n    - Factual Summary:\n    - Applicable Legal Sections:\n    - Demand or Request:\n    - Sender Details:\n    - Verification:\n    - Signature:\n    \n    Fill in the details based on the user's scenario. Use placeholders like [Police Station Name] for information not provided."

/-- The full drafting prompt (the f-string of `generate_legal_complaint`). -/
def complaint_prompt (user_scenario : Str) (ipc_sections : List LegalSection) : Str :=
  complaintPre ++ user_scenario ++ complaintMid ++ sections_text ipc_sections ++ complaintPost

/-- `generate_legal_complaint` from `app.py`. -/
def generate_legal_complaint (model : Model) (user_scenario : Str)
    (ipc_sections : List LegalSection) : Str :=
  match model (complaint_prompt user_scenario ipc_sections) with
  | .ok response => response
  | .error e => S "Error: Could not generate complaint. " ++ e

/-! ## The orchestrator (`process_and_display_results`) -/

/-- The process-wide singletons the orchestrator reads: the model client,
the Chroma collection handle, and the injected current-date string. -/
structure Env where
  model : Model
  collection : Str → Nat → QueryResult
  now : Str

/-- External calls the orchestrator can issue, recorded as a trace. -/
inductive Event
  | translateInput
  | classify
  | retrieve
  | draft
  | translateOutput
  | renderPdf
deriving DecidableEq

/-- The terminal state of one request. -/
inductive Outcome
  | rejected
  | delivered (final_complaint : Str) (pdf : List PdfElem)
deriving DecidableEq

/-- Python truthiness test `lang and lang.lower() != "english"`. -/
def needsTranslation (lang : Str) : Bool :=
  !lang.isEmpty && !(lowerStr lang == S "english")

/-- The `text_for_processing` computed at the top of
`process_and_display_results`. -/
def text_for_processing (env : Env) (original_text detected_language : Str) : Str :=
  if needsTranslation detected_language then
    translate_text env.model original_text (S "English") detected_language
  else original_text

/-- The translate-input events issued before classification. -/
def inputEvents (detected_language : Str) : List Event :=
  if needsTranslation detected_language then [.translateInput] else []

/-- `detected_language if output_language == "Auto-Detect" else output_language`. -/
def final_output_language (detected_language output_language : Str) : Str :=
  if output_language == S "Auto-Detect" then detected_language else output_language

/-- `process_and_display_results` from `app.py`, returning the terminal
outcome and the trace of external stage calls; `none` models an uncaught
exception (an `IndexError` escaping `search_relevant_sections`). -/
def process_and_display_results (env : Env)
    (original_text detected_language output_language : Str) :
    Option (Outcome × List Event) :=
  let tfp := text_for_processing env original_text detected_language
  if is_legal_query env.model tfp then
    match search_relevant_sections env.collection tfp 5 with
    | none => none
    | some ipc_sections =>
      let english_complaint := generate_legal_complaint env.model tfp ipc_sections
      let fol := final_output_language detected_language output_language
      let final_complaint :=
        if needsTranslation fol then
          translate_text env.model english_complaint fol (S "English")
        else english_complaint
      let outEvents : List Event := if needsTranslation fol then [.translateOutput] else []
      let pdf := generate_pdf env.now final_complaint
      some (.delivered final_complaint pdf,
        inputEvents detected_language ++ [Event.classify, Event.retrieve, Event.draft] ++
          outEvents ++ [Event.renderPdf])
  else
    some (.rejected, inputEvents detected_language ++ [Event.classify])

/-! ## Lemmas about the string primitives -/

theorem isPrefixB_iff : ∀ p s : Str, isPrefixB p s = true ↔ ∃ v, s = p ++ v
  | [], s => by simp [isPrefixB]
  | a :: l, [] => by
    simp only [isPrefixB, Bool.false_eq_true, false_iff]
    rintro ⟨v, hv⟩
    exact List.cons_ne_nil a (l ++ v) hv.symm
  | a :: l, b :: s => by
    simp only [isPrefixB, Bool.and_eq_true, beq_iff_eq, isPrefixB_iff l s]
    constructor
    · rintro ⟨rfl, v, rfl⟩
      exact ⟨v, rfl⟩
    · rintro ⟨v, hv⟩
      rw [List.cons_append] at hv
      obtain ⟨h1, h2⟩ := List.cons.injEq .. ▸ hv
      exact ⟨h1.symm, v, h2⟩

theorem containsB_iff : ∀ pat s : Str, containsB pat s = true ↔ ∃ u v, s = u ++ pat ++ v
  | pat, [] => by
    simp only [containsB, List.isEmpty_iff]
    constructor
    · rintro rfl
      exact ⟨[], [], rfl⟩
    · rintro ⟨u, v, huv⟩
      rcases List.append_eq_nil.mp (List.append_eq_nil.mp huv.symm).1 with ⟨-, h⟩
      exact h
  | pat, c :: s => by
    simp only [containsB, Bool.or_eq_true, isPrefixB_iff, containsB_iff pat s]
    constructor
    · rintro (⟨v, hv⟩ | ⟨u, v, huv⟩)
      · exact ⟨[], v, by simpa using hv⟩
      · exact ⟨c :: u, v, by simp [huv]⟩
    · rintro ⟨u, v, huv⟩
      match u, huv with
      | [], huv => exact Or.inl ⟨v, by simpa using huv⟩
      | b :: u, huv =>
        rw [List.cons_append, List.cons_append] at huv
        obtain ⟨-, h2⟩ := List.cons.injEq .. ▸ huv
        exact Or.inr ⟨u, v, h2⟩

theorem containsB_append_right {pat b : Str} (a : Str) (h : containsB pat b = true) :
    containsB pat (a ++ b) = true := by
  rw [containsB_iff] at h ⊢
  obtain ⟨u, v, rfl⟩ := h
  exact ⟨a ++ u, v, by simp⟩

theorem containsB_append_left {pat a : Str} (h : containsB pat a = true) (b : Str) :
    containsB pat (a ++ b) = true := by
  rw [containsB_iff] at h ⊢
  obtain ⟨u, v, rfl⟩ := h
  exact ⟨u, v ++ b, by simp⟩

theorem containsB_self_append (pat r : Str) : containsB pat (pat ++ r) = true := by
  rw [containsB_iff]
  exact ⟨[], r, by simp⟩

theorem containsB_reverse (pat s : Str) :
    containsB pat s.reverse = containsB pat.reverse s := by
  rcases h : containsB pat.reverse s with _ | _
  · rcases h2 : containsB pat s.reverse with _ | _
    · rfl
    · obtain ⟨u, v, huv⟩ := (containsB_iff ..).mp h2
      have : s = v.reverse ++ pat.reverse ++ u.reverse := by
        have := congrArg List.reverse huv
        simpa [List.append_assoc] using this
      rw [(containsB_iff ..).mpr ⟨v.reverse, u.reverse, this⟩] at h
      cases h
  · obtain ⟨u, v, huv⟩ := (containsB_iff ..).mp h
    refine ((containsB_iff ..).mpr ⟨v.reverse, u.reverse, ?_⟩).trans rfl
    have := congrArg List.reverse huv
    simpa [List.append_assoc] using this

theorem containsB_cons_of_head_ne {p0 : Char} {pt : Str} (a : Char) (s : Str)
    (ha : (p0 == a) = false) :
    containsB (p0 :: pt) (a :: s) = containsB (p0 :: pt) s := by
  simp [containsB, isPrefixB, ha]

theorem containsB_lower_dropWhile (p0 : Char) (pt : Str)
    (hp0 : ∀ c : Char, c.isWhitespace = true → (p0 == c.toLower) = false) :
    ∀ s : Str, containsB (p0 :: pt) (lowerStr (s.dropWhile Char.isWhitespace)) =
      containsB (p0 :: pt) (lowerStr s)
  | [] => rfl
  | c :: s => by
    rcases hc : c.isWhitespace with _ | _
    · simp [List.dropWhile_cons, hc]
    · rw [List.dropWhile_cons, if_pos hc,
        containsB_lower_dropWhile p0 pt hp0 s]
      show containsB (p0 :: pt) (lowerStr s) =
        containsB (p0 :: pt) (Char.toLower c :: lowerStr s)
      rw [containsB_cons_of_head_ne (Char.toLower c) (lowerStr s) (hp0 c hc)]

theorem lowerStr_reverse (s : Str) : lowerStr s.reverse = (lowerStr s).reverse := by
  simp [lowerStr]

/-- Stripping surrounding whitespace never changes whether the lowered
text contains `"yes"`: the pattern is non-empty and starts and ends with
non-whitespace characters. -/
theorem containsB_yes_pyStrip (t : Str) :
    containsB (S "yes") (lowerStr (pyStrip t)) = containsB (S "yes") (lowerStr t) := by
  have hy : ∀ c : Char, c.isWhitespace = true → ('y' == c.toLower) = false := by
    intro c hc
    simp only [Char.isWhitespace, Bool.or_eq_true, decide_eq_true_eq] at hc
    rcases hc with ((rfl | rfl) | rfl) | rfl <;> decide
  have hs : ∀ c : Char, c.isWhitespace = true → ('s' == c.toLower) = false := by
    intro c hc
    simp only [Char.isWhitespace, Bool.or_eq_true, decide_eq_true_eq] at hc
    rcases hc with ((rfl | rfl) | rfl) | rfl <;> decide
  unfold pyStrip
  rw [lowerStr_reverse, containsB_reverse]
  show containsB ('s' :: S "ey")
    (lowerStr (List.dropWhile Char.isWhitespace (t.dropWhile Char.isWhitespace).reverse)) = _
  rw [containsB_lower_dropWhile 's' (S "ey") hs,
    lowerStr_reverse, containsB_reverse]
  show containsB ('y' :: S "es") (lowerStr (t.dropWhile Char.isWhitespace)) = _
  rw [containsB_lower_dropWhile 'y' (S "es") hy]
  rfl

/-! ## Lemmas about the substitution engine -/

theorem subAllFuel_of_nowhere {p : List Tok} (r : Str) :
    ∀ (s : Str) (fuel : Nat), matchesNowhere p s = true → subAllFuel p r fuel s = s
  | [], fuel, _ => by cases fuel <;> rfl
  | c :: s, 0, _ => rfl
  | c :: s, fuel + 1, h => by
    simp only [matchesNowhere, Bool.and_eq_true, Option.isNone_iff_eq_none] at h
    show (match matchToks p (c :: s) with
      | some (n + 1) => r ++ subAllFuel p r fuel (s.drop n)
      | _ => c :: subAllFuel p r fuel s) = c :: s
    rw [h.1]
    rw [subAllFuel_of_nowhere r s fuel h.2]

theorem subAll_of_nowhere {p : List Tok} (r s : Str) (h : matchesNowhere p s = true) :
    subAll p r s = s :=
  subAllFuel_of_nowhere r s s.length h

theorem matchesNowhere_of_head_notin {c : Char} {l : Str} (ps : List Tok) :
    ∀ s : Str, (∀ a ∈ s, (c.toLower == a.toLower) = false) →
      matchesNowhere (.lit (c :: l) :: ps) s = true
  | [], _ => rfl
  | a :: s, h => by
    have ha : (c.toLower == a.toLower) = false := h a (List.mem_cons_self a s)
    simp only [matchesNowhere, Bool.and_eq_true, Option.isNone_iff_eq_none]
    constructor
    · show (if isPrefixCI (c :: l) (a :: s) then
          (matchToks ps ((a :: s).drop (c :: l).length)).map (· + (c :: l).length)
        else none) = none
      rw [if_neg]
      simp only [isPrefixCI, ha, Bool.false_and, Bool.false_eq_true, not_false_eq_true]
    · exact matchesNowhere_of_head_notin ps s fun b hb => h b (List.mem_cons_of_mem a hb)

/-- Applying substitution rules whose patterns all require a `'['` to a
line containing no `'['` leaves the line unchanged. -/
theorem foldl_subAll_of_no_bracket :
    ∀ (prs : List (List Tok × Str)) (s : Str),
      (∀ pr ∈ prs, ∃ l ps, pr.1 = Tok.lit ('[' :: l) :: ps) →
      (∀ a ∈ s, ('['.toLower == a.toLower) = false) →
      prs.foldl (fun t pr => subAll pr.1 pr.2 t) s = s
  | [], s, _, _ => rfl
  | pr :: prs, s, hp, hs => by
    obtain ⟨l, ps, hpr⟩ := hp pr (List.mem_cons_self pr prs)
    have hstep : subAll pr.1 pr.2 s = s := by
      rw [hpr]
      exact subAll_of_nowhere _ _ (matchesNowhere_of_head_notin ps s hs)
    show prs.foldl (fun t pr => subAll pr.1 pr.2 t) (subAll pr.1 pr.2 s) = s
    rw [hstep]
    exact foldl_subAll_of_no_bracket prs s (fun x hx => hp x (List.mem_cons_of_mem pr hx)) hs

theorem isPrefixB_self_append (p t : Str) : isPrefixB p (p ++ t) = true :=
  (isPrefixB_iff p (p ++ t)).mpr ⟨t, rfl⟩

theorem containsB_joinWith (sep : Str) :
    ∀ (xs : List Str) (x : Str), x ∈ xs → containsB x (joinWith sep xs) = true
  | [], x, hx => absurd hx (List.not_mem_nil x)
  | [y], x, hx => by
    rw [List.mem_singleton.mp hx]
    show containsB y y = true
    simpa using containsB_self_append y []
  | y :: z :: zs, x, hx => by
    show containsB x (y ++ sep ++ joinWith sep (z :: zs)) = true
    rcases List.mem_cons.mp hx with rfl | hx
    · rw [List.append_assoc]
      exact containsB_append_left (by simpa using containsB_self_append x []) _
    · exact containsB_append_right _ (containsB_joinWith sep (z :: zs) x hx)

/-! ## Lemmas about `buildRows` -/

theorem buildRows_spec (r : QueryResult) :
    ∀ n : Nat, (∀ i, i < n → (fetchRow r i).isSome = true) →
      ∃ l, buildRows r n = some l ∧ l.length = n ∧ ∀ j, j < n → l.get? j = fetchRow r j
  | 0, _ => ⟨[], rfl, rfl, fun j hj => absurd hj (Nat.not_lt_zero j)⟩
  | n + 1, h => by
    obtain ⟨l, hbr, hlen, hget⟩ := buildRows_spec r n (fun i hi => h i (Nat.lt_succ_of_lt hi))
    obtain ⟨sec, hsec⟩ := Option.isSome_iff_exists.mp (h n (Nat.lt_succ_self n))
    refine ⟨l ++ [sec], ?_, by simp [hlen], ?_⟩
    · show (buildRows r n).bind _ = _
      rw [hbr]
      show (fetchRow r n).bind _ = _
      rw [hsec]
      rfl
    · intro j hj
      rcases Nat.lt_or_ge j n with hlt | hge
      · rw [List.get?_append (hlen ▸ hlt), hget j hlt]
      · have hj' : j = n := by omega
        subst hj'
        rw [hsec, ← hlen, List.get?_concat_length]

/-- The contract of the external Chroma store on one query: at most the
requested number of ids, and aligned metadata/document rows. -/
def storeWF (r : QueryResult) (k : Nat) : Bool :=
  match r.ids with
  | none => true
  | some idss =>
    match idss.head? with
    | none => true
    | some ids0 =>
      ids0.isEmpty ||
      (decide (ids0.length ≤ k) &&
        (match r.metadatas.head? with
         | some m => decide (ids0.length ≤ m.length)
         | none => false) &&
        (match r.documents.head? with
         | some d => decide (ids0.length ≤ d.length)
         | none => false))

/-! ## Claim theorems -/

/-- C2: `is_legal_query` returns `true` iff the model's response text,
case-insensitively, contains the substring `"yes"`; whenever the model
call raises an exception it returns `false` (fail-closed). -/
theorem C2_is_legal_query_yes_iff (model : Model) (user_query : Str) :
    (∀ e, model (legal_prompt user_query) = Except.error e →
      is_legal_query model user_query = false) ∧
    (∀ t, model (legal_prompt user_query) = Except.ok t →
      (is_legal_query model user_query = true ↔
        containsB (S "yes") (lowerStr t) = true)) := by
  constructor
  · intro e he
    simp only [is_legal_query, he]
  · intro t ht
    simp only [is_legal_query, ht]
    rw [containsB_yes_pyStrip]

/-- Witness for C2: a verbose affirmative answer is accepted; a raised
exception yields `false`. -/
theorem C2_is_legal_query_yes_iff_witness :
    is_legal_query (fun _ => Except.ok (S " YES, it is. ")) (S "street fight") = true ∧
    is_legal_query (fun _ => Except.error (S "quota exceeded")) (S "street fight") = false := by
  constructor
  · exact ((C2_is_legal_query_yes_iff (fun _ => Except.ok (S " YES, it is. "))
      (S "street fight")).2 (S " YES, it is. ") rfl).mpr (by decide)
  · exact (C2_is_legal_query_yes_iff (fun _ => Except.error (S "quota exceeded"))
      (S "street fight")).1 (S "quota exceeded") rfl

/-- C4: if the model call inside `translate_text` raises an exception,
the function returns exactly the original input text, unchanged. -/
theorem C4_translate_text_identity_on_failure (model : Model)
    (text target_language source_language e : Str)
    (h : model (translate_prompt text target_language source_language) = Except.error e) :
    translate_text model text target_language source_language = text := by
  simp only [translate_text, h]

/-- Witness for C4 at a concrete failing model. -/
theorem C4_translate_text_identity_on_failure_witness :
    translate_text (fun _ => Except.error (S "rate limit")) (S "hello there")
      (S "Hindi") (S "English") = S "hello there" :=
  C4_translate_text_identity_on_failure (fun _ => Except.error (S "rate limit"))
    (S "hello there") (S "Hindi") (S "English") (S "rate limit") rfl

/-- C9: if the model call inside `generate_legal_complaint` raises, the
function returns (rather than propagates) a literal error string that
embeds the failure detail and begins with
`"Error: Could not generate complaint."`. -/
theorem C9_draft_failure_error_string (model : Model) (user_scenario : Str)
    (ipc_sections : List LegalSection) (e : Str)
    (h : model (complaint_prompt user_scenario ipc_sections) = Except.error e) :
    generate_legal_complaint model user_scenario ipc_sections =
      S "Error: Could not generate complaint. " ++ e ∧
    isPrefixB (S "Error: Could not generate complaint.")
      (generate_legal_complaint model user_scenario ipc_sections) = true := by
  have h1 : generate_legal_complaint model user_scenario ipc_sections =
      S "Error: Could not generate complaint. " ++ e := by
    simp only [generate_legal_complaint, h]
  refine ⟨h1, ?_⟩
  rw [h1]
  show isPrefixB (S "Error: Could not generate complaint.")
    (S "Error: Could not generate complaint." ++ (' ' :: e)) = true
  exact isPrefixB_self_append _ _

/-- Witness for C9 at a concrete failing model. -/
theorem C9_draft_failure_error_string_witness :
    generate_legal_complaint (fun _ => Except.error (S "503")) (S "my bike was stolen") [] =
      S "Error: Could not generate complaint. " ++ S "503" :=
  (C9_draft_failure_error_string (fun _ => Except.error (S "503"))
    (S "my bike was stolen") [] (S "503") rfl).1

/-- C10: if the model call inside `detect_language_of_text` raises, the
function returns `"English"`, and consequently the orchestrator skips
input translation and processes the original text unchanged. -/
theorem C10_detect_language_fail_open (model : Model) (text e : Str)
    (h : model (detect_prompt text) = Except.error e) :
    detect_language_of_text model text = S "English" ∧
    (∀ env orig, text_for_processing env orig (detect_language_of_text model text) = orig) ∧
    (∀ env orig out oc evs,
      process_and_display_results env orig (detect_language_of_text model text) out =
        some (oc, evs) → Event.translateInput ∉ evs) := by
  have hd : detect_language_of_text model text = S "English" := by
    simp only [detect_language_of_text, h]
  have hn : needsTranslation (S "English") = false := by decide
  refine ⟨hd, ?_, ?_⟩
  · intro env orig
    rw [hd]
    simp [text_for_processing, hn]
  · intro env orig out oc evs hp
    rw [hd] at hp
    by_cases hleg : is_legal_query env.model (text_for_processing env orig (S "English")) = true
    · simp only [process_and_display_results, hleg, if_true] at hp
      rcases hs : search_relevant_sections env.collection
          (text_for_processing env orig (S "English")) 5 with _ | ipc_sections
      · rw [hs] at hp
        cases hp
      · rw [hs] at hp
        obtain ⟨-, hevs⟩ := Prod.mk.injEq .. ▸ Option.some.injEq .. ▸ hp
        subst hevs
        simp only [inputEvents, hn, Bool.false_eq_true, if_false]
        by_cases hf : needsTranslation (final_output_language (S "English") out) = true
        · simp [hf]
        · simp [hf]
    · rw [Bool.not_eq_true] at hleg
      simp only [process_and_display_results, hleg, Bool.false_eq_true, if_false,
        Option.some.injEq] at hp
      obtain ⟨-, hevs⟩ := Prod.mk.injEq .. ▸ hp
      subst hevs
      simp [inputEvents, hn]

/-- Witness for C10 at a concrete failing model. -/
theorem C10_detect_language_fail_open_witness :
    detect_language_of_text (fun _ => Except.error (S "timeout")) (S "hola") = S "English" :=
  (C10_detect_language_fail_open (fun _ => Except.error (S "timeout")) (S "hola")
    (S "timeout") rfl).1

/-- C1: when classification returns `false`, the orchestrator issues no
retrieval, drafting, output-translation or rendering call and terminates
in the rejected ("out of scope") state. -/
theorem C1_short_circuit (env : Env) (original_text detected_language output_language : Str)
    (h : is_legal_query env.model
      (text_for_processing env original_text detected_language) = false) :
    process_and_display_results env original_text detected_language output_language =
      some (Outcome.rejected, inputEvents detected_language ++ [Event.classify]) ∧
    Event.retrieve ∉ inputEvents detected_language ++ [Event.classify] ∧
    Event.draft ∉ inputEvents detected_language ++ [Event.classify] ∧
    Event.translateOutput ∉ inputEvents detected_language ++ [Event.classify] ∧
    Event.renderPdf ∉ inputEvents detected_language ++ [Event.classify] := by
  refine ⟨?_, ?_, ?_, ?_, ?_⟩
  · simp only [process_and_display_results, h, Bool.false_eq_true, if_false]
  all_goals
    unfold inputEvents
    cases needsTranslation detected_language <;> decide

/-- Witness for C1: a model answering "No" leads to rejection with only
the classification call in the trace. -/
theorem C1_short_circuit_witness :
    process_and_display_results
        ⟨fun _ => Except.ok (S "No"), fun _ _ => ⟨none, [], []⟩, S "January 05, 2025"⟩
        (S "what is the weather") (S "English") (S "English") =
      some (Outcome.rejected, inputEvents (S "English") ++ [Event.classify]) ∧
    Event.retrieve ∉ inputEvents (S "English") ++ [Event.classify] ∧
    Event.draft ∉ inputEvents (S "English") ++ [Event.classify] ∧
    Event.translateOutput ∉ inputEvents (S "English") ++ [Event.classify] ∧
    Event.renderPdf ∉ inputEvents (S "English") ++ [Event.classify] :=
  C1_short_circuit ⟨fun _ => Except.ok (S "No"), fun _ _ => ⟨none, [], []⟩,
    S "January 05, 2025"⟩ (S "what is the weather") (S "English") (S "English") (by decide)

/-- C3: under the store's contract (`storeWF`: at most `k` ids, aligned
metadata/document rows), `search_relevant_sections` succeeds with at most
`k` records, each built from the store's row with the sentinel `"N/A"`
substituted for missing `section_number` or `title` metadata. -/
theorem C3_search_relevant_sections_normalized (collection : Str → Nat → QueryResult)
    (user_query : Str) (k : Nat) (_hk : 0 < k)
    (hwf : storeWF (collection user_query k) k = true) :
    (search_relevant_sections collection user_query k).isSome = true ∧
    ∀ l, search_relevant_sections collection user_query k = some l →
      l.length ≤ k ∧
      ∀ j, j < l.length →
        ∃ mrow m drow d,
          (collection user_query k).metadatas.head? = some mrow ∧ mrow.get? j = some m ∧
          (collection user_query k).documents.head? = some drow ∧ drow.get? j = some d ∧
          l.get? j = some ⟨m.section_number.getD (S "N/A"), m.title.getD (S "N/A"), d⟩ := by
  have triv : ∀ hs : search_relevant_sections collection user_query k = some [],
      (search_relevant_sections collection user_query k).isSome = true ∧
      ∀ l, search_relevant_sections collection user_query k = some l →
        l.length ≤ k ∧
        ∀ j, j < l.length →
          ∃ mrow m drow d,
            (collection user_query k).metadatas.head? = some mrow ∧ mrow.get? j = some m ∧
            (collection user_query k).documents.head? = some drow ∧ drow.get? j = some d ∧
            l.get? j =
              some ⟨m.section_number.getD (S "N/A"), m.title.getD (S "N/A"), d⟩ := by
    intro hs
    rw [hs]
    exact ⟨rfl, fun l hl => by
      obtain rfl : ([] : List LegalSection) = l := Option.some.inj hl
      exact ⟨Nat.zero_le k, fun j hj => absurd hj (Nat.not_lt_zero j)⟩⟩
  unfold storeWF at hwf
  rcases hids : (collection user_query k).ids with _ | idss
  · exact triv (by unfold search_relevant_sections; rw [hids])
  · rw [hids] at hwf
    rcases idss with _ | ⟨ids0, idsrest⟩
    · refine triv ?_
      unfold search_relevant_sections
      rw [hids]
      rfl
    · simp only [List.head?_cons] at hwf
      by_cases hemp : ids0.isEmpty = true
      · refine triv ?_
        unfold search_relevant_sections
        rw [hids]
        show (if ids0.isEmpty = true then some [] else _) = some []
        rw [if_pos hemp]
      · have hemp' : ids0.isEmpty = false := by
          rcases h : ids0.isEmpty with _ | _
          · rfl
          · exact absurd h hemp
        rw [hemp', Bool.false_or, Bool.and_eq_true, Bool.and_eq_true] at hwf
        obtain ⟨⟨hlek, hmrow⟩, hdrow⟩ := hwf
        rw [decide_eq_true_eq] at hlek
        rcases hm : (collection user_query k).metadatas.head? with _ | mrow
        · rw [hm] at hmrow
          cases hmrow
        rw [hm, decide_eq_true_eq] at hmrow
        rcases hd : (collection user_query k).documents.head? with _ | drow
        · rw [hd] at hdrow
          cases hdrow
        rw [hd, decide_eq_true_eq] at hdrow
        have hfetch : ∀ i, i < ids0.length →
            ∃ m d, mrow.get? i = some m ∧ drow.get? i = some d ∧
              fetchRow (collection user_query k) i =
                some ⟨m.section_number.getD (S "N/A"), m.title.getD (S "N/A"), d⟩ := by
          intro i hi
          have him : i < mrow.length := lt_of_lt_of_le hi hmrow
          have hid : i < drow.length := lt_of_lt_of_le hi hdrow
          refine ⟨mrow.get ⟨i, him⟩, drow.get ⟨i, hid⟩,
            List.get?_eq_get him, List.get?_eq_get hid, ?_⟩
          unfold fetchRow
          rw [hm, hd]
          simp only [Option.some_bind, List.get?_eq_get him, List.get?_eq_get hid]
          rfl
        have hsome : ∀ i, i < ids0.length →
            (fetchRow (collection user_query k) i).isSome = true := by
          intro i hi
          obtain ⟨m, d, -, -, hf⟩ := hfetch i hi
          rw [hf]
          rfl
        obtain ⟨l, hbr, hlen, hget⟩ :=
          buildRows_spec (collection user_query k) ids0.length hsome
        have hsearch : search_relevant_sections collection user_query k = some l := by
          unfold search_relevant_sections
          rw [hids]
          show (if ids0.isEmpty = true then some []
            else buildRows (collection user_query k) ids0.length) = some l
          rw [if_neg hemp, hbr]
        rw [hsearch]
        refine ⟨rfl, fun l' hl' => ?_⟩
        obtain rfl : l = l' := Option.some.inj hl'
        refine ⟨le_trans (le_of_eq hlen) hlek, ?_⟩
        intro j hj
        rw [hlen] at hj
        obtain ⟨m, d, hmg, hdg, hf⟩ := hfetch j hj
        refine ⟨mrow, m, drow, d, rfl, hmg, rfl, hdg, ?_⟩
        rw [hget j hj, hf]

/-- Witness for C3 at a concrete two-hit store response with one missing
title and one missing section number. -/
theorem C3_search_relevant_sections_normalized_witness :
    (search_relevant_sections
      (fun _ _ => ⟨some [[S "id0", S "id1"]],
        [[⟨some (S "379"), none⟩, ⟨none, some (S "Punishment for theft")⟩]],
        [[S "Whoever intends to take dishonestly...", S "Theft punishment text"]]⟩)
      (S "my laptop was stolen") 5).isSome = true :=
  (C3_search_relevant_sections_normalized
    (fun _ _ => ⟨some [[S "id0", S "id1"]],
      [[⟨some (S "379"), none⟩, ⟨none, some (S "Punishment for theft")⟩]],
      [[S "Whoever intends to take dishonestly...", S "Theft punishment text"]]⟩)
    (S "my laptop was stolen") 5 (by decide) (by decide)).1

/-- The blank-token length law: for any rational width, the inserted run
has `⌊width_inches * 20⌋` underscores. -/
theorem create_blank_line_eq_floor (w : ℚ) :
    create_blank_line w = List.replicate (Int.floor (w * 20)).toNat '_' := by
  have key : w * 20 = ((w.num * 20 : Int) : ℚ) / ((w.den : ℕ) : ℚ) := by
    conv_lhs => rw [← Rat.num_div_den w]
    push_cast
    ring
  rw [create_blank_line, key, Rat.floor_intCast_div_natCast]

/-- C5: the renderer maps the line `"[Police Station Name, City]"` to a
run of exactly 60 underscores and `"[Date of incident: ___]"` to exactly
40 underscores, and every blank token of width `w` inches has
`⌊w * 20⌋` underscores. -/
theorem C5_placeholder_blank_lines :
    (∀ now : Str, process_text_for_pdf now (S "[Police Station Name, City]") =
      List.replicate 60 '_') ∧
    (∀ now : Str, process_text_for_pdf now (S "[Date of incident: ___]") =
      List.replicate 40 '_') ∧
    ∀ w : ℚ, create_blank_line w = List.replicate (Int.floor (w * 20)).toNat '_' := by
  refine ⟨?_, ?_, create_blank_line_eq_floor⟩
  · intro now
    simp only [process_text_for_pdf, patterns, List.foldl_cons, List.foldl_nil]
    rw [show subAll [Tok.lit (S "[Police Station Name"), Tok.star, Tok.lit (S "]")]
      (create_blank_line (mkRat 3 1)) (S "[Police Station Name, City]") =
      List.replicate 60 '_' by decide]
    rw [show subAll [Tok.lit (S "[City, State, India"), Tok.star, Tok.lit (S "]")]
      (create_blank_line (mkRat 3 1)) (List.replicate 60 '_') =
      List.replicate 60 '_' by decide]
    rw [subAll_of_nowhere now (List.replicate 60 '_') (by decide)]
    rw [show subAll [Tok.lit (S "[Date of incident"), Tok.star, Tok.lit (S "]")]
      (create_blank_line (mkRat 2 1)) (List.replicate 60 '_') =
      List.replicate 60 '_' by decide]
    rw [show subAll [Tok.lit (S "[Time of incident"), Tok.star, Tok.lit (S "]")]
      (create_blank_line (mkRat 2 1)) (List.replicate 60 '_') =
      List.replicate 60 '_' by decide]
    rw [show subAll [Tok.lit (S "["), Tok.star, Tok.lit (S "Name"), Tok.star, Tok.lit (S "]")]
      (create_blank_line (mkRat 3 1)) (List.replicate 60 '_') =
      List.replicate 60 '_' by decide]
    rw [show subAll [Tok.lit (S "["), Tok.star, Tok.lit (S "Address"), Tok.star, Tok.lit (S "]")]
      (create_blank_line (mkRat 4 1)) (List.replicate 60 '_') =
      List.replicate 60 '_' by decide]
    rw [show subAll [Tok.lit (S "["), Tok.star, Tok.lit (S "Contact"), Tok.star, Tok.lit (S "]")]
      (create_blank_line (mkRat 5 2)) (List.replicate 60 '_') =
      List.replicate 60 '_' by decide]
    rw [show subAll [Tok.lit (S "[User's Signature"), Tok.star, Tok.lit (S "]")]
      (create_blank_line (mkRat 5 2)) (List.replicate 60 '_') =
      List.replicate 60 '_' by decide]
    rw [show subAll [Tok.lit (S "[Complainant's"), Tok.star, Tok.lit (S "]")]
      (create_blank_line (mkRat 3 1)) (List.replicate 60 '_') =
      List.replicate 60 '_' by decide]
    rw [show subAll [Tok.lit (S "[User's"), Tok.star, Tok.lit (S "]")]
      (create_blank_line (mkRat 3 1)) (List.replicate 60 '_') =
      List.replicate 60 '_' by decide]
    rw [show subAll [Tok.lit (S "["), Tok.star, Tok.lit (S "description of the person"),
        Tok.star, Tok.lit (S "]")]
      (create_blank_line (mkRat 5 1)) (List.replicate 60 '_') =
      List.replicate 60 '_' by decide]
  · intro now
    simp only [process_text_for_pdf, patterns, List.foldl_cons, List.foldl_nil]
    rw [show subAll [Tok.lit (S "[Police Station Name"), Tok.star, Tok.lit (S "]")]
      (create_blank_line (mkRat 3 1)) (S "[Date of incident: ___]") =
      S "[Date of incident: ___]" by decide]
    rw [show subAll [Tok.lit (S "[City, State, India"), Tok.star, Tok.lit (S "]")]
      (create_blank_line (mkRat 3 1)) (S "[Date of incident: ___]") =
      S "[Date of incident: ___]" by decide]
    rw [subAll_of_nowhere now (S "[Date of incident: ___]") (by decide)]
    rw [show subAll [Tok.lit (S "[Date of incident"), Tok.star, Tok.lit (S "]")]
      (create_blank_line (mkRat 2 1)) (S "[Date of incident: ___]") =
      List.replicate 40 '_' by decide]
    rw [show subAll [Tok.lit (S "[Time of incident"), Tok.star, Tok.lit (S "]")]
      (create_blank_line (mkRat 2 1)) (List.replicate 40 '_') =
      List.replicate 40 '_' by decide]
    rw [show subAll [Tok.lit (S "["), Tok.star, Tok.lit (S "Name"), Tok.star, Tok.lit (S "]")]
      (create_blank_line (mkRat 3 1)) (List.replicate 40 '_') =
      List.replicate 40 '_' by decide]
    rw [show subAll [Tok.lit (S "["), Tok.star, Tok.lit (S "Address"), Tok.star, Tok.lit (S "]")]
      (create_blank_line (mkRat 4 1)) (List.replicate 40 '_') =
      List.replicate 40 '_' by decide]
    rw [show subAll [Tok.lit (S "["), Tok.star, Tok.lit (S "Contact"), Tok.star, Tok.lit (S "]")]
      (create_blank_line (mkRat 5 2)) (List.replicate 40 '_') =
      List.replicate 40 '_' by decide]
    rw [show subAll [Tok.lit (S "[User's Signature"), Tok.star, Tok.lit (S "]")]
      (create_blank_line (mkRat 5 2)) (List.replicate 40 '_') =
      List.replicate 40 '_' by decide]
    rw [show subAll [Tok.lit (S "[Complainant's"), Tok.star, Tok.lit (S "]")]
      (create_blank_line (mkRat 3 1)) (List.replicate 40 '_') =
      List.replicate 40 '_' by decide]
    rw [show subAll [Tok.lit (S "[User's"), Tok.star, Tok.lit (S "]")]
      (create_blank_line (mkRat 3 1)) (List.replicate 40 '_') =
      List.replicate 40 '_' by decide]
    rw [show subAll [Tok.lit (S "["), Tok.star, Tok.lit (S "description of the person"),
        Tok.star, Tok.lit (S "]")]
      (create_blank_line (mkRat 5 1)) (List.replicate 40 '_') =
      List.replicate 40 '_' by decide]

/-- C7 (amended): `"LEGAL COMPLAINT"` is classified Title; a line whose
uppercase form contains `"LEGAL COMPLAINT"` but whose length is 30 or
more is never classified Title — it falls to Heading, Address or Body
(the example line falls to Body; a line starting with `"To,"` falls to
Address, see the counterexample). -/
theorem C7_title_classification :
    classifyLine (S "LEGAL COMPLAINT") = Role.title ∧
    classifyLine (S "LEGAL COMPLAINT AGAINST UNKNOWN PERSON FOR THEFT") = Role.body ∧
    ∀ line : Str, containsB (S "LEGAL COMPLAINT") (upperStr line) = true →
      30 ≤ line.length → classifyLine line ≠ Role.title := by
  refine ⟨by decide, by decide, ?_⟩
  intro line hcont hlen
  unfold classifyLine
  have hc : (containsB (S "LEGAL COMPLAINT") (upperStr line) &&
      decide (line.length < 30)) = false := by
    rw [hcont, Bool.true_and, decide_eq_false]
    omega
  rw [hc]
  simp only [Bool.false_eq_true, if_false]
  split_ifs <;> decide

/-- Counterexample to C7 as stated: a long line starting with `"To,"`
whose uppercase form contains `"LEGAL COMPLAINT"` is classified Address,
not Heading or Body. -/
theorem C7_title_classification_counterexample :
    containsB (S "LEGAL COMPLAINT")
      (upperStr (S "To, LEGAL COMPLAINT AUTHORITY OF THE CITY")) = true ∧
    30 ≤ (S "To, LEGAL COMPLAINT AUTHORITY OF THE CITY").length ∧
    classifyLine (S "To, LEGAL COMPLAINT AUTHORITY OF THE CITY") = Role.address ∧
    Role.address ≠ Role.heading ∧ Role.address ≠ Role.body ∧
    Role.address ≠ Role.title := by decide

/-- Witness for C7: the example line of the claim is not Title. -/
theorem C7_title_classification_witness :
    classifyLine (S "LEGAL COMPLAINT AGAINST UNKNOWN PERSON FOR THEFT") ≠ Role.title :=
  C7_title_classification.2.2 (S "LEGAL COMPLAINT AGAINST UNKNOWN PERSON FOR THEFT")
    (by decide) (by decide)

/-- C6 (amended): every non-blank line rendered as a Heading, Address or
Body paragraph emits its text placeholder-substituted and then
markup-escaped (`&`, `<`, `>`); a Title paragraph instead emits the raw
stripped line, neither substituted nor escaped. -/
theorem C6_escaped_after_substitution (now raw t : Str) (r : Role)
    (h : renderLine now raw = PdfElem.para t r) :
    (r ≠ Role.title → t = escapeMarkup (process_text_for_pdf now (pyStrip raw))) ∧
    (r = Role.title → t = pyStrip raw) := by
  unfold renderLine at h
  by_cases hemp : (pyStrip raw).isEmpty = true
  · rw [if_pos hemp] at h
    cases h
  · rw [if_neg hemp] at h
    rcases hcl : classifyLine (pyStrip raw) with _ | _ | _ | _
    all_goals rw [hcl] at h
    · have h' : PdfElem.para (pyStrip raw) Role.title = PdfElem.para t r := h
      injection h' with ht hr
      subst ht
      subst hr
      exact ⟨fun hne => absurd rfl hne, fun _ => rfl⟩
    · have h' : PdfElem.para (escapeMarkup (process_text_for_pdf now (pyStrip raw)))
        Role.heading = PdfElem.para t r := h
      injection h' with ht hr
      subst ht
      subst hr
      exact ⟨fun _ => rfl, fun he => absurd he (by decide)⟩
    · have h' : PdfElem.para (escapeMarkup (process_text_for_pdf now (pyStrip raw)))
        Role.address = PdfElem.para t r := h
      injection h' with ht hr
      subst ht
      subst hr
      exact ⟨fun _ => rfl, fun he => absurd he (by decide)⟩
    · have h' : PdfElem.para (escapeMarkup (process_text_for_pdf now (pyStrip raw)))
        Role.body = PdfElem.para t r := h
      injection h' with ht hr
      subst ht
      subst hr
      exact ⟨fun _ => rfl, fun he => absurd he (by decide)⟩

/-- Counterexample to C6 as stated: a Title line containing `&` and `<`
is emitted raw — not escaped — into its paragraph. -/
theorem C6_escaped_after_substitution_counterexample :
    renderLine (S "January 05, 2025") (S "LEGAL COMPLAINT & <X>") =
      PdfElem.para (S "LEGAL COMPLAINT & <X>") Role.title ∧
    S "LEGAL COMPLAINT & <X>" ≠
      escapeMarkup (process_text_for_pdf (S "January 05, 2025")
        (S "LEGAL COMPLAINT & <X>")) := by decide

/-- Witness for C6: a Body line is emitted substituted-then-escaped. -/
theorem C6_escaped_after_substitution_witness :
    (Role.body ≠ Role.title →
      S "I met A &amp; B" = escapeMarkup (process_text_for_pdf (S "January 05, 2025")
        (pyStrip (S "I met A & B")))) ∧
    (Role.body = Role.title → S "I met A &amp; B" = pyStrip (S "I met A & B")) :=
  C6_escaped_after_substitution (S "January 05, 2025") (S "I met A & B")
    (S "I met A &amp; B") Role.body (by decide)

/-- C8: with an empty retrieval the drafting prompt carries the generic
fallback phrase in place of the section list — and no bulleted list;
otherwise the prompt carries one bullet per retrieved section with its
number, title and description. -/
theorem C8_prompt_fallback_and_bullets (user_scenario : Str)
    (ipc_sections : List LegalSection) :
    (ipc_sections = [] →
      sections_text [] = S "Based on the user's description." ∧
      containsB (S "Based on the user's description.")
        (complaint_prompt user_scenario []) = true ∧
      containsB (S "• Section") (sections_text []) = false) ∧
    ∀ s ∈ ipc_sections,
      containsB (bulletOf s) (complaint_prompt user_scenario ipc_sections) = true := by
  constructor
  · rintro rfl
    refine ⟨rfl, ?_, by decide⟩
    unfold complaint_prompt
    rw [List.append_assoc]
    refine containsB_append_right _ ?_
    show containsB (S "Based on the user's description.")
      (S "Based on the user's description." ++ complaintPost) = true
    exact containsB_self_append _ _
  · intro s hs
    have hne : ipc_sections.isEmpty = false := by
      cases ipc_sections
      · exact absurd hs (List.not_mem_nil s)
      · rfl
    have hsec : containsB (bulletOf s) (sections_text ipc_sections) = true := by
      unfold sections_text
      rw [hne]
      simp only [Bool.false_eq_true, if_false]
      exact containsB_joinWith (S "\n") (ipc_sections.map bulletOf) (bulletOf s)
        (List.mem_map_of_mem bulletOf hs)
    unfold complaint_prompt
    rw [List.append_assoc]
    exact containsB_append_right _ (containsB_append_left hsec _)

/-- Witness for C8: the fallback phrase with no sections; a concrete
bullet with one section. -/
theorem C8_prompt_fallback_and_bullets_witness :
    containsB (S "Based on the user's description.")
      (complaint_prompt (S "my phone was taken") []) = true ∧
    containsB (bulletOf ⟨S "379", S "Theft", S "Dishonest taking of property"⟩)
      (complaint_prompt (S "my phone was taken")
        [⟨S "379", S "Theft", S "Dishonest taking of property"⟩]) = true :=
  ⟨((C8_prompt_fallback_and_bullets (S "my phone was taken") []).1 rfl).2.1,
   (C8_prompt_fallback_and_bullets (S "my phone was taken")
      [⟨S "379", S "Theft", S "Dishonest taking of property"⟩]).2
    ⟨S "379", S "Theft", S "Dishonest taking of property"⟩
    (List.mem_cons_self _ _)⟩

end LegalApp
